import Mathlib

/-!
Shallow embedding of the debug-namespace RPC bridge
(crates/rpc/src/debug.rs).  Every bridge method is modelled as a pure
function of its arguments and of the backend's response to the single
outbound gRPC call the method issues.  The value returned by the model
carries the bridge state after the call, the trace of outbound backend
calls issued during the method, and the outcome delivered to the inbound
caller (a normal return, a structured JSON-RPC error, or a fatal abort of
the call path corresponding to a Rust panic raised by expect).
-/

namespace Silius

/-- Native address type (ethers Address), modelled as a natural number;
the claims only move addresses around, never look inside them. -/
abbrev Address := Nat

/-- Native 256-bit hash type (ethers H256), modelled as a natural number. -/
abbrev H256 := Nat

/-- Transport-level failure of an outbound gRPC call (a tonic Status):
a status code and a message. -/
structure GrpcStatus where
  code : Nat
  message : String
deriving DecidableEq

/-- Modelled from the spec: the inbound protocol's structured error object
(jsonrpsee ErrorObjectOwned, defined outside the provided sources) with
code, message and optional data; debug.rs only ever passes None data of
type bool. -/
structure ErrorObjectOwned where
  code : Int
  message : String
  data : Option Bool
deriving DecidableEq

/-- Modelled from the spec: the jsonrpsee INTERNAL_ERROR_CODE constant,
the standard JSON-RPC internal-error code. -/
def INTERNAL_ERROR_CODE : Int := -32603

/-- Modelled from the spec: the conversion JsonRpcError::from used on
every transport failure (the crate file error.rs is not among the
provided sources); per the spec it converts the backend status into the
inbound protocol's structured error representation, carrying the
backend's original message forward for diagnostics. -/
def JsonRpcError.fromStatus (s : GrpcStatus) : ErrorObjectOwned :=
  { code := INTERNAL_ERROR_CODE, message := s.message, data := none }

/-- Modelled from the spec: the success sentinel of the debug API
(ResponseSuccess in debug_api.rs, not among the provided sources). -/
inductive ResponseSuccess where
  | Ok
deriving DecidableEq

/-- Outcome of one inbound call: a normal return, a structured error, or
a fatal abort of the in-flight call (a Rust panic raised by expect). -/
inductive CallOutcome (α : Type) where
  | ok : α → CallOutcome α
  | err : ErrorObjectOwned → CallOutcome α
  | fatal : String → CallOutcome α
deriving DecidableEq

/-- Modelled from the spec: a pending user operation
(silius_primitives UserOperation, not among the provided sources); the
spec describes it by sender, nonce and an op-specific payload, which is
all the bridge ever depends on. -/
structure UserOperation where
  sender : Address
  nonce : Nat
  payload : Nat
deriving DecidableEq

/-- Modelled from the spec: the gRPC wire form of a user operation,
convertible into the native form. -/
structure GrpcUserOperation where
  sender : Address
  nonce : Nat
  payload : Nat
deriving DecidableEq

/-- Modelled from the spec: the Into conversion from the wire form to the
native user operation (field for field). -/
def GrpcUserOperation.toUserOperation (uo : GrpcUserOperation) : UserOperation :=
  { sender := uo.sender, nonce := uo.nonce, payload := uo.payload }

/-- Modelled from the spec: a native reputation entry (participant
address plus numeric reputation fields). -/
structure ReputationEntry where
  address : Address
  uoSeen : Nat
  uoIncluded : Nat
deriving DecidableEq

/-- Modelled from the spec: the gRPC wire form of a reputation entry. -/
structure GrpcReputationEntry where
  address : Address
  uoSeen : Nat
  uoIncluded : Nat
deriving DecidableEq

/-- Modelled from the spec: conversion from the wire form to the native
reputation entry (field for field). -/
def GrpcReputationEntry.toReputationEntry (re : GrpcReputationEntry) : ReputationEntry :=
  { address := re.address, uoSeen := re.uoSeen, uoIncluded := re.uoIncluded }

/-- Modelled from the spec: conversion from the native reputation entry
to the wire form (field for field). -/
def ReputationEntry.toGrpc (re : ReputationEntry) : GrpcReputationEntry :=
  { address := re.address, uoSeen := re.uoSeen, uoIncluded := re.uoIncluded }

/-- Modelled from the spec: native stake information (staked amount and
unstake delay). -/
structure StakeInfo where
  stake : Nat
  unstakeDelay : Nat
deriving DecidableEq

/-- Modelled from the spec: the gRPC wire form of stake information. -/
structure GrpcStakeInfo where
  stake : Nat
  unstakeDelay : Nat
deriving DecidableEq

/-- Modelled from the spec: conversion from the wire form to native stake
information (field for field). -/
def GrpcStakeInfo.toStakeInfo (si : GrpcStakeInfo) : StakeInfo :=
  { stake := si.stake, unstakeDelay := si.unstakeDelay }

/-- Modelled from the spec: the response shape of get-stake-status
(silius_primitives StakeInfoResponse, not among the provided sources). -/
structure StakeInfoResponse where
  stake_info : StakeInfo
  is_staked : Bool
deriving DecidableEq

/-- Modelled from the spec: the bundling mode enumeration of the native
primitives crate (not among the provided sources): automatic interval
versus manual trigger. -/
inductive BundlerMode where
  | Manual
  | Auto
deriving DecidableEq

/-- Modelled from the spec: the gRPC Mode enumeration mirroring the
native bundling mode. -/
inductive GrpcMode where
  | Manual
  | Auto
deriving DecidableEq

/-- Modelled from the spec: the Into conversion from the native bundling
mode to the gRPC mode. -/
def BundlerMode.toGrpc : BundlerMode → GrpcMode
  | BundlerMode.Manual => GrpcMode.Manual
  | BundlerMode.Auto => GrpcMode.Auto

/-- Modelled from the spec: the prost i32 representation of the gRPC
mode enumeration. -/
def GrpcMode.toI32 : GrpcMode → Int
  | GrpcMode.Manual => 0
  | GrpcMode.Auto => 1

/-- Modelled from the spec: the fixed compile-time default bundling
interval constant DEFAULT_BUNDLE_INTERVAL of the primitives crate (not
among the provided sources); its exact numeric value is irrelevant to
every claim, only its fixedness matters. -/
def DEFAULT_BUNDLE_INTERVAL : Nat := 10

/-- Modelled from the spec: the designated reputation-set success code,
SetReputationResult::SetReputation as i32 (prost numbers the first enum
variant 0). -/
def SetReputationResult.SetReputation : Int := 0

/-- Wire request of the get-all (dump-mempool) backend call. -/
structure GetAllRequest where
  ep : Option Address
deriving DecidableEq

/-- Wire response of the get-all backend call. -/
structure GetAllResponse where
  uos : List GrpcUserOperation
deriving DecidableEq

/-- Wire request of the set-reputation backend call. -/
structure SetReputationRequest where
  rep : List GrpcReputationEntry
  ep : Option Address
deriving DecidableEq

/-- Wire response of the set-reputation backend call: a result code. -/
structure SetReputationResponse where
  res : Int
deriving DecidableEq

/-- Wire request of the get-all-reputation backend call. -/
structure GetAllReputationRequest where
  ep : Option Address
deriving DecidableEq

/-- Wire response of the get-all-reputation backend call. -/
structure GetAllReputationResponse where
  rep : List GrpcReputationEntry
deriving DecidableEq

/-- Wire request of the set-bundler-mode backend call. -/
structure SetModeRequest where
  mode : Int
  interval : Nat
deriving DecidableEq

/-- Wire response of the send-bundle-now backend call: an optional bundle
transaction hash (optional because proto message fields are optional,
which is exactly what the contract-violation claims are about). -/
structure SendBundleNowResponse where
  res : Option H256
deriving DecidableEq

/-- Wire request of the get-stake-info backend call. -/
structure GetStakeInfoRequest where
  addr : Option Address
  ep : Option Address
deriving DecidableEq

/-- Wire response of the get-stake-info backend call: optional nested
stake info plus a staked flag. -/
structure GetStakeInfoResponse where
  info : Option GrpcStakeInfo
  is_staked : Bool
deriving DecidableEq

/-- A cheaply clonable handle to the uopool gRPC channel; cloning yields
a handle to the same underlying channel. -/
structure UoPoolClient where
  channel : Nat
deriving DecidableEq

/-- A cheaply clonable handle to the bundler gRPC channel. -/
structure BundlerClient where
  channel : Nat
deriving DecidableEq

/-- DebugApiServerImpl (debug.rs lines 24-27): the entire state of the
bridge is the two backend client handles; it holds nothing else. -/
structure DebugApiServerImpl where
  uopool_grpc_client : UoPoolClient
  bundler_grpc_client : BundlerClient
deriving DecidableEq

/-- One outbound backend call, together with the request it carries. -/
inductive BackendCall where
  | clearMempool
  | clearReputation
  | clearAll
  | getAll (req : GetAllRequest)
  | setReputationCall (req : SetReputationRequest)
  | getAllReputation (req : GetAllReputationRequest)
  | setBundlerMode (req : SetModeRequest)
  | sendBundleNowCall
  | getStakeInfo (req : GetStakeInfoRequest)
deriving DecidableEq

/-- Interval carried by an outbound call, when it is a set-bundler-mode
request. -/
def BackendCall.intervalOf : BackendCall → Option Nat
  | BackendCall.setBundlerMode req => some req.interval
  | _ => none

/-- Result of running one bridge method: the bridge state afterwards, the
trace of outbound backend calls issued by the method, and the outcome
returned to the inbound caller. -/
structure MethodOutcome (α : Type) where
  post : DebugApiServerImpl
  calls : List BackendCall
  result : CallOutcome α
deriving DecidableEq

/-- Comparator relation of the sort in dump_mempool (debug.rs line 104):
a.nonce.cmp(b.nonce), viewed as the total preorder on nonces. -/
def nonceLe (a b : UserOperation) : Prop := a.nonce ≤ b.nonce

instance : DecidableRel nonceLe := fun a b => Nat.decLe a.nonce b.nonce

instance : IsTotal UserOperation nonceLe := ⟨fun a b => Nat.le_total a.nonce b.nonce⟩

instance : IsTrans UserOperation nonceLe := ⟨fun _ _ _ hab hbc => Nat.le_trans hab hbc⟩

/-- The sort performed by dump_mempool.  Rust Vec::sort_by is a stable
sort, and the output of a stable sort is uniquely determined by the
comparator and the input order (theorem sorted_stable_unique below), so
the stable insertion sort models it exactly. -/
def sortByNonce (uos : List UserOperation) : List UserOperation :=
  List.insertionSort nonceLe uos

/-- clear_mempool (debug.rs lines 36-46): clone the uopool client, issue
the clear-mempool call, map a transport error through JsonRpcError, and
otherwise discard the response payload (whose wire type is outside the
provided sources, so the model is parametric in it) and return Ok. -/
def DebugApiServerImpl.clear_mempool (self : DebugApiServerImpl) (ρ : Type)
    (resp : Except GrpcStatus ρ) : MethodOutcome ResponseSuccess :=
  { post := self
    calls := [BackendCall.clearMempool]
    result :=
      match resp with
      | Except.error s => CallOutcome.err (JsonRpcError.fromStatus s)
      | Except.ok _ => CallOutcome.ok ResponseSuccess.Ok }

/-- clear_reputation (debug.rs lines 53-63): same shape as clear_mempool,
against the clear-reputation backend call. -/
def DebugApiServerImpl.clear_reputation (self : DebugApiServerImpl) (ρ : Type)
    (resp : Except GrpcStatus ρ) : MethodOutcome ResponseSuccess :=
  { post := self
    calls := [BackendCall.clearReputation]
    result :=
      match resp with
      | Except.error s => CallOutcome.err (JsonRpcError.fromStatus s)
      | Except.ok _ => CallOutcome.ok ResponseSuccess.Ok }

/-- clear_state (debug.rs lines 70-80): a single combined clear backend
call discarding both mempool and reputation state. -/
def DebugApiServerImpl.clear_state (self : DebugApiServerImpl) (ρ : Type)
    (resp : Except GrpcStatus ρ) : MethodOutcome ResponseSuccess :=
  { post := self
    calls := [BackendCall.clearAll]
    result :=
      match resp with
      | Except.error s => CallOutcome.err (JsonRpcError.fromStatus s)
      | Except.ok _ => CallOutcome.ok ResponseSuccess.Ok }

/-- dump_mempool (debug.rs lines 90-106): issue get-all for the entry
point, convert each wire operation to the native form, stably sort the
vector by nonce, and return it. -/
def DebugApiServerImpl.dump_mempool (self : DebugApiServerImpl) (ep : Address)
    (resp : Except GrpcStatus GetAllResponse) : MethodOutcome (List UserOperation) :=
  { post := self
    calls := [BackendCall.getAll { ep := some ep }]
    result :=
      match resp with
      | Except.error s => CallOutcome.err (JsonRpcError.fromStatus s)
      | Except.ok res =>
          CallOutcome.ok (sortByNonce (res.uos.map GrpcUserOperation.toUserOperation)) }

/-- set_reputation (debug.rs lines 117-144): forward the converted
entries, then return Ok exactly when the result code is the designated
reputation-set code, and a fixed generic internal error otherwise. -/
def DebugApiServerImpl.set_reputation (self : DebugApiServerImpl)
    (entries : List ReputationEntry) (ep : Address)
    (resp : Except GrpcStatus SetReputationResponse) : MethodOutcome ResponseSuccess :=
  { post := self
    calls := [BackendCall.setReputationCall
      { rep := entries.map ReputationEntry.toGrpc, ep := some ep }]
    result :=
      match resp with
      | Except.error s => CallOutcome.err (JsonRpcError.fromStatus s)
      | Except.ok res =>
          if res.res = SetReputationResult.SetReputation then
            CallOutcome.ok ResponseSuccess.Ok
          else
            CallOutcome.err
              { code := INTERNAL_ERROR_CODE
                message := "Error setting reputation"
                data := none } }

/-- dump_reputation (debug.rs lines 153-167): issue get-all-reputation
and return the converted entries in backend order; no sort. -/
def DebugApiServerImpl.dump_reputation (self : DebugApiServerImpl) (ep : Address)
    (resp : Except GrpcStatus GetAllReputationResponse) :
    MethodOutcome (List ReputationEntry) :=
  { post := self
    calls := [BackendCall.getAllReputation { ep := some ep }]
    result :=
      match resp with
      | Except.error s => CallOutcome.err (JsonRpcError.fromStatus s)
      | Except.ok res =>
          CallOutcome.ok (res.rep.map GrpcReputationEntry.toReputationEntry) }

/-- set_bundling_mode (debug.rs lines 176-188): the outbound request
always carries the converted mode and the fixed DEFAULT_BUNDLE_INTERVAL;
the response payload is ignored. -/
def DebugApiServerImpl.set_bundling_mode (self : DebugApiServerImpl)
    (mode : BundlerMode) (ρ : Type) (resp : Except GrpcStatus ρ) :
    MethodOutcome ResponseSuccess :=
  { post := self
    calls := [BackendCall.setBundlerMode
      { mode := GrpcMode.toI32 mode.toGrpc, interval := DEFAULT_BUNDLE_INTERVAL }]
    result :=
      match resp with
      | Except.ok _ => CallOutcome.ok ResponseSuccess.Ok
      | Except.error s => CallOutcome.err (JsonRpcError.fromStatus s) }

/-- send_bundle_now (debug.rs lines 196-209): on success the optional
hash payload is unwrapped by expect, which panics with the message below
when the payload is absent; the panic is modelled by the fatal outcome. -/
def DebugApiServerImpl.send_bundle_now (self : DebugApiServerImpl)
    (resp : Except GrpcStatus SendBundleNowResponse) : MethodOutcome H256 :=
  { post := self
    calls := [BackendCall.sendBundleNowCall]
    result :=
      match resp with
      | Except.ok res =>
          match res.res with
          | some h => CallOutcome.ok h
          | none => CallOutcome.fatal "Must return send bundle tx data"
      | Except.error s => CallOutcome.err (JsonRpcError.fromStatus s) }

/-- get_stake_status (debug.rs lines 219-237): on success the optional
nested stake info is unwrapped by expect, which panics with the message
below when the payload is absent; the panic is modelled by the fatal
outcome. -/
def DebugApiServerImpl.get_stake_status (self : DebugApiServerImpl)
    (addr ep : Address) (resp : Except GrpcStatus GetStakeInfoResponse) :
    MethodOutcome StakeInfoResponse :=
  { post := self
    calls := [BackendCall.getStakeInfo { addr := some addr, ep := some ep }]
    result :=
      match resp with
      | Except.ok res =>
          match res.info with
          | some info =>
              CallOutcome.ok
                { stake_info := info.toStakeInfo, is_staked := res.is_staked }
          | none => CallOutcome.fatal "Must return stake info"
      | Except.error s => CallOutcome.err (JsonRpcError.fromStatus s) }

/-- A concrete bridge instance, used by the closed witness theorems. -/
def implSample : DebugApiServerImpl :=
  { uopool_grpc_client := { channel := 0 }
    bundler_grpc_client := { channel := 1 } }

/-- The sorted output of dump_mempool is sorted non-decreasing by nonce. -/
theorem sorted_sortByNonce (l : List UserOperation) :
    List.Sorted nonceLe (sortByNonce l) :=
  List.sorted_insertionSort nonceLe l

/-- The sorted output of dump_mempool is a permutation of its input. -/
theorem perm_sortByNonce (l : List UserOperation) :
    List.Perm (sortByNonce l) l :=
  List.perm_insertionSort nonceLe l

/-- Inserting an operation leaves every nonce-class of the list intact,
apart from prepending the inserted operation to its own class. -/
theorem filter_orderedInsert_nonce (uo : UserOperation) (l : List UserOperation)
    (k : Nat) :
    (List.orderedInsert nonceLe uo l).filter (fun u => u.nonce == k)
      = if uo.nonce == k then
          uo :: l.filter (fun u => u.nonce == k)
        else l.filter (fun u => u.nonce == k) := by
  induction l with
  | nil =>
      by_cases huk : uo.nonce = k <;> simp [List.orderedInsert, huk]
  | cons b t ih =>
      by_cases hle : nonceLe uo b
      · rw [List.orderedInsert_of_le nonceLe t hle]
        by_cases huk : uo.nonce = k <;> simp [List.filter_cons, huk]
      · have h1 : List.orderedInsert nonceLe uo (b :: t)
            = b :: List.orderedInsert nonceLe uo t := by
          simp [List.orderedInsert, hle]
        have hlt : b.nonce < uo.nonce := by
          have : ¬ uo.nonce ≤ b.nonce := hle
          omega
        rw [h1, List.filter_cons, ih]
        by_cases huk : uo.nonce = k
        · have hbk : ¬ b.nonce = k := by omega
          simp [huk, hbk, List.filter_cons]
        · by_cases hbk : b.nonce = k <;> simp [huk, hbk, List.filter_cons]

/-- Stability of the dump_mempool sort: for every nonce value, the
operations carrying that nonce appear in the output in exactly the order
they had in the input. -/
theorem filter_sortByNonce (l : List UserOperation) (k : Nat) :
    (sortByNonce l).filter (fun u => u.nonce == k)
      = l.filter (fun u => u.nonce == k) := by
  induction l with
  | nil => rfl
  | cons b t ih =>
      have h1 : sortByNonce (b :: t)
          = List.orderedInsert nonceLe b (sortByNonce t) := rfl
      rw [h1, filter_orderedInsert_nonce, ih]
      by_cases hbk : b.nonce = k <;> simp [hbk, List.filter_cons]

/-- Two lists sorted by nonce whose nonce-classes agree are equal.  This
is the uniqueness half of the stable-sort specification: together with
sorted_sortByNonce and filter_sortByNonce it shows that any stable sort
by nonce (in particular Rust Vec::sort_by) returns sortByNonce. -/
theorem sorted_stable_unique :
    ∀ l₁ l₂ : List UserOperation, List.Sorted nonceLe l₁ → List.Sorted nonceLe l₂ →
      (∀ k : Nat, l₁.filter (fun u => u.nonce == k) = l₂.filter (fun u => u.nonce == k)) →
      l₁ = l₂
  | [], [], _, _, _ => rfl
  | [], b :: t₂, _, _, hf => by
      have h := hf b.nonce
      simp [List.filter_cons] at h
  | a :: t₁, [], _, _, hf => by
      have h := hf a.nonce
      simp [List.filter_cons] at h
  | a :: t₁, b :: t₂, hs₁, hs₂, hf => by
      have hab : a.nonce = b.nonce := by
        have h₁ := hf a.nonce
        have h₂ := hf b.nonce
        simp only [List.filter_cons, beq_self_eq_true, if_pos] at h₁ h₂
        by_contra hne
        have hba : (b.nonce == a.nonce) = false := by
          simp only [beq_eq_false_iff_ne]
          omega
        have hab2 : (a.nonce == b.nonce) = false := by
          simp only [beq_eq_false_iff_ne]
          exact hne
        rw [hba] at h₁
        rw [hab2] at h₂
        simp only [if_neg, Bool.false_eq_true, if_false] at h₁ h₂
        have ha_mem : a ∈ t₂.filter (fun u => u.nonce == a.nonce) := by
          rw [← h₁]
          exact List.mem_cons_self a _
        have hb_mem : b ∈ t₁.filter (fun u => u.nonce == b.nonce) := by
          rw [h₂]
          exact List.mem_cons_self b _
        have ha2 : a ∈ t₂ := (List.mem_filter.mp ha_mem).1
        have hb2 : b ∈ t₁ := (List.mem_filter.mp hb_mem).1
        have hba_le : nonceLe b a := List.rel_of_sorted_cons hs₂ a ha2
        have hab_le : nonceLe a b := List.rel_of_sorted_cons hs₁ b hb2
        have : a.nonce = b.nonce := Nat.le_antisymm hab_le hba_le
        exact hne this
      have hhead : a = b ∧ ∀ k : Nat,
          t₁.filter (fun u => u.nonce == k) = t₂.filter (fun u => u.nonce == k) := by
        constructor
        · have h := hf a.nonce
          rw [List.filter_cons, List.filter_cons] at h
          simp only [beq_self_eq_true, if_pos] at h
          have : (b.nonce == a.nonce) = true := by
            simp only [beq_iff_eq]
            omega
          rw [this] at h
          simp at h
          exact h.1
        · intro k
          have h := hf k
          rw [List.filter_cons, List.filter_cons] at h
          by_cases hak : a.nonce = k
          · have hbk : (b.nonce == k) = true := by
              simp only [beq_iff_eq]
              omega
            have hak2 : (a.nonce == k) = true := by
              simp only [beq_iff_eq]
              exact hak
            rw [hak2, hbk] at h
            simp at h
            exact h.2
          · have hbk : (b.nonce == k) = false := by
              simp only [beq_eq_false_iff_ne]
              omega
            have hak2 : (a.nonce == k) = false := by
              simp only [beq_eq_false_iff_ne]
              exact hak
            rw [hak2, hbk] at h
            simpa using h
      have ht : t₁ = t₂ :=
        sorted_stable_unique t₁ t₂ (List.Sorted.of_cons hs₁) (List.Sorted.of_cons hs₂)
          hhead.2
      rw [hhead.1, ht]

/-- C1: for every backend response to dump-mempool, the sequence returned
to the caller is the stable sort by nonce of the converted backend
entries: it is sorted non-decreasing by nonce regardless of backend
order, and entries with equal nonces keep their backend-provided
relative order (every nonce-class is returned in input order). -/
theorem dump_mempool_sorted_by_nonce_and_stable (self : DebugApiServerImpl)
    (ep : Address) (res : GetAllResponse) :
    (self.dump_mempool ep (Except.ok res)).result
        = CallOutcome.ok (sortByNonce (res.uos.map GrpcUserOperation.toUserOperation))
      ∧ List.Sorted nonceLe (sortByNonce (res.uos.map GrpcUserOperation.toUserOperation))
      ∧ ∀ k : Nat,
          (sortByNonce (res.uos.map GrpcUserOperation.toUserOperation)).filter
              (fun u => u.nonce == k)
            = (res.uos.map GrpcUserOperation.toUserOperation).filter
              (fun u => u.nonce == k) :=
  ⟨rfl, sorted_sortByNonce _, fun k => filter_sortByNonce _ k⟩

/-- Witness for C1 at the spec's example: backend nonces 5, 1, 3 come
back ordered 1, 3, 5. -/
theorem dump_mempool_sorted_by_nonce_and_stable_witness :
    (implSample.dump_mempool 0
        (Except.ok { uos := [⟨1, 5, 0⟩, ⟨2, 1, 0⟩, ⟨3, 3, 0⟩] })).result
        = CallOutcome.ok
            (sortByNonce
              ([⟨1, 5, 0⟩, ⟨2, 1, 0⟩, ⟨3, 3, 0⟩].map GrpcUserOperation.toUserOperation))
      ∧ sortByNonce
            ([⟨1, 5, 0⟩, ⟨2, 1, 0⟩, ⟨3, 3, 0⟩].map GrpcUserOperation.toUserOperation)
          = [⟨2, 1, 0⟩, ⟨3, 3, 0⟩, ⟨1, 5, 0⟩] :=
  ⟨(dump_mempool_sorted_by_nonce_and_stable implSample 0
      { uos := [⟨1, 5, 0⟩, ⟨2, 1, 0⟩, ⟨3, 3, 0⟩] }).1, by decide⟩

/-- C9: the dump-mempool output is a permutation of the converted backend
entries: the sort neither drops, duplicates, nor fabricates any pending
operation. -/
theorem dump_mempool_is_permutation (self : DebugApiServerImpl)
    (ep : Address) (res : GetAllResponse) :
    (self.dump_mempool ep (Except.ok res)).result
        = CallOutcome.ok (sortByNonce (res.uos.map GrpcUserOperation.toUserOperation))
      ∧ List.Perm (sortByNonce (res.uos.map GrpcUserOperation.toUserOperation))
          (res.uos.map GrpcUserOperation.toUserOperation) :=
  ⟨rfl, perm_sortByNonce _⟩

/-- Witness for C9: at a concrete three-entry response, the output is a
permutation of the converted input, including the duplicate nonce. -/
theorem dump_mempool_is_permutation_witness :
    List.Perm
      (sortByNonce
        ([⟨1, 5, 0⟩, ⟨2, 1, 0⟩, ⟨3, 5, 1⟩].map GrpcUserOperation.toUserOperation))
      ([⟨1, 5, 0⟩, ⟨2, 1, 0⟩, ⟨3, 5, 1⟩].map GrpcUserOperation.toUserOperation) :=
  (dump_mempool_is_permutation implSample 0
      { uos := [⟨1, 5, 0⟩, ⟨2, 1, 0⟩, ⟨3, 5, 1⟩] }).2

/-- C2: when the backend acknowledges send-bundle-now or get-stake-status
successfully but omits the required nested payload, the in-flight call
aborts with the fatal contract-violation outcome carrying its
distinguishing diagnostic message; the outcome is neither a normal
return (no default value is fabricated) nor a recoverable structured
error, and it is local to this one method result. -/
theorem missing_payload_aborts_fatally (self : DebugApiServerImpl)
    (addr ep : Address) (b : Bool) :
    ((self.send_bundle_now (Except.ok { res := none })).result
        = CallOutcome.fatal "Must return send bundle tx data"
      ∧ (∀ h : H256, (self.send_bundle_now (Except.ok { res := none })).result
          ≠ CallOutcome.ok h)
      ∧ ∀ e : ErrorObjectOwned,
          (self.send_bundle_now (Except.ok { res := none })).result
            ≠ CallOutcome.err e)
    ∧ ((self.get_stake_status addr ep
          (Except.ok { info := none, is_staked := b })).result
        = CallOutcome.fatal "Must return stake info"
      ∧ (∀ si : StakeInfoResponse,
          (self.get_stake_status addr ep
              (Except.ok { info := none, is_staked := b })).result
            ≠ CallOutcome.ok si)
      ∧ ∀ e : ErrorObjectOwned,
          (self.get_stake_status addr ep
              (Except.ok { info := none, is_staked := b })).result
            ≠ CallOutcome.err e) := by
  refine ⟨⟨rfl, ?_, ?_⟩, rfl, ?_, ?_⟩ <;> intro x hx <;> exact nomatch hx

/-- Witness for C2: concrete empty payloads produce the two fatal
diagnostics. -/
theorem missing_payload_aborts_fatally_witness :
    (implSample.send_bundle_now (Except.ok { res := none })).result
        = CallOutcome.fatal "Must return send bundle tx data"
      ∧ (implSample.get_stake_status 0 0
            (Except.ok { info := none, is_staked := false })).result
          = CallOutcome.fatal "Must return stake info" :=
  ⟨(missing_payload_aborts_fatally implSample 0 0 false).1.1,
   (missing_payload_aborts_fatally implSample 0 0 false).2.1⟩

/-- C3: set-reputation returns the success sentinel exactly when the
backend result code equals the designated reputation-set success code;
every other code yields the same fixed generic internal error, with the
backend-specific code discarded. -/
theorem set_reputation_iff_success_code (self : DebugApiServerImpl)
    (entries : List ReputationEntry) (ep : Address) (res : SetReputationResponse) :
    ((self.set_reputation entries ep (Except.ok res)).result
        = CallOutcome.ok ResponseSuccess.Ok
      ↔ res.res = SetReputationResult.SetReputation)
    ∧ (res.res ≠ SetReputationResult.SetReputation →
        (self.set_reputation entries ep (Except.ok res)).result
          = CallOutcome.err
              { code := INTERNAL_ERROR_CODE
                message := "Error setting reputation"
                data := none }) := by
  constructor
  · constructor
    · intro h
      by_contra hne
      simp [DebugApiServerImpl.set_reputation, hne] at h
    · intro h
      simp [DebugApiServerImpl.set_reputation, h]
  · intro h
    simp [DebugApiServerImpl.set_reputation, h]

/-- Witness for C3: the designated code 0 yields the success sentinel,
and an unrelated code 7 yields the fixed generic internal error. -/
theorem set_reputation_iff_success_code_witness :
    (implSample.set_reputation [] 0 (Except.ok { res := 0 })).result
        = CallOutcome.ok ResponseSuccess.Ok
      ∧ (implSample.set_reputation [] 0 (Except.ok { res := 7 })).result
          = CallOutcome.err
              { code := INTERNAL_ERROR_CODE
                message := "Error setting reputation"
                data := none } :=
  ⟨(set_reputation_iff_success_code implSample [] 0 { res := 0 }).1.mpr rfl,
   (set_reputation_iff_success_code implSample [] 0 { res := 7 }).2 (by decide)⟩

/-- C4: dump-reputation returns the converted backend entries in exactly
the backend-provided order: the outcome is the pointwise conversion of
the backend list, the address sequence is untouched, and a concrete
response whose addresses and scores are in descending order comes back
still descending (no reordering). -/
theorem dump_reputation_preserves_backend_order (self : DebugApiServerImpl)
    (ep : Address) (res : GetAllReputationResponse) :
    (self.dump_reputation ep (Except.ok res)).result
        = CallOutcome.ok (res.rep.map GrpcReputationEntry.toReputationEntry)
      ∧ (res.rep.map GrpcReputationEntry.toReputationEntry).map
            (fun r => r.address)
          = res.rep.map (fun r => r.address)
      ∧ (implSample.dump_reputation 0
            (Except.ok { rep := [⟨5, 9, 9⟩, ⟨1, 2, 2⟩] })).result
          = CallOutcome.ok [⟨5, 9, 9⟩, ⟨1, 2, 2⟩] :=
  ⟨rfl, by simp [GrpcReputationEntry.toReputationEntry], rfl⟩

/-- Witness for C4: a concrete descending backend response is returned
unchanged. -/
theorem dump_reputation_preserves_backend_order_witness :
    (implSample.dump_reputation 0
        (Except.ok { rep := [⟨5, 9, 9⟩, ⟨1, 2, 2⟩] })).result
      = CallOutcome.ok
          ([⟨5, 9, 9⟩, ⟨1, 2, 2⟩].map GrpcReputationEntry.toReputationEntry) :=
  (dump_reputation_preserves_backend_order implSample 0
      { rep := [⟨5, 9, 9⟩, ⟨1, 2, 2⟩] }).1

/-- C5: set-bundling-mode attaches the fixed compile-time default
bundling interval to its single outbound request for every mode, so the
interval forwarded to the backend is independent of the caller-supplied
mode value. -/
theorem set_bundling_mode_fixed_interval (self : DebugApiServerImpl)
    (mode mode2 : BundlerMode) (ρ : Type) (resp : Except GrpcStatus ρ) :
    (self.set_bundling_mode mode ρ resp).calls
        = [BackendCall.setBundlerMode
            { mode := GrpcMode.toI32 mode.toGrpc
              interval := DEFAULT_BUNDLE_INTERVAL }]
      ∧ (self.set_bundling_mode mode ρ resp).calls.map BackendCall.intervalOf
          = (self.set_bundling_mode mode2 ρ resp).calls.map BackendCall.intervalOf :=
  ⟨rfl, rfl⟩

/-- Witness for C5: Manual and Auto modes forward the same interval. -/
theorem set_bundling_mode_fixed_interval_witness :
    (implSample.set_bundling_mode BundlerMode.Manual Unit
          (Except.ok ())).calls.map BackendCall.intervalOf
      = (implSample.set_bundling_mode BundlerMode.Auto Unit
          (Except.ok ())).calls.map BackendCall.intervalOf :=
  (set_bundling_mode_fixed_interval implSample BundlerMode.Manual BundlerMode.Auto
      Unit (Except.ok ())).2

/-- C6: in every bridge method, a transport failure of the outbound
backend call is converted to the inbound protocol's structured error
built by the JsonRpcError conversion, which carries the backend's
original message, and the method issues exactly one outbound call (the
call is never retried). -/
theorem transport_error_uniform_mapping (self : DebugApiServerImpl)
    (s : GrpcStatus) (ep addr : Address) (entries : List ReputationEntry)
    (mode : BundlerMode) (ρ σ : Type) :
    (JsonRpcError.fromStatus s).message = s.message
    ∧ ((self.clear_mempool ρ (Except.error s)).result
          = CallOutcome.err (JsonRpcError.fromStatus s)
        ∧ (self.clear_mempool ρ (Except.error s)).calls.length = 1)
    ∧ ((self.clear_reputation σ (Except.error s)).result
          = CallOutcome.err (JsonRpcError.fromStatus s)
        ∧ (self.clear_reputation σ (Except.error s)).calls.length = 1)
    ∧ ((self.clear_state ρ (Except.error s)).result
          = CallOutcome.err (JsonRpcError.fromStatus s)
        ∧ (self.clear_state ρ (Except.error s)).calls.length = 1)
    ∧ ((self.dump_mempool ep (Except.error s)).result
          = CallOutcome.err (JsonRpcError.fromStatus s)
        ∧ (self.dump_mempool ep (Except.error s)).calls.length = 1)
    ∧ ((self.set_reputation entries ep (Except.error s)).result
          = CallOutcome.err (JsonRpcError.fromStatus s)
        ∧ (self.set_reputation entries ep (Except.error s)).calls.length = 1)
    ∧ ((self.dump_reputation ep (Except.error s)).result
          = CallOutcome.err (JsonRpcError.fromStatus s)
        ∧ (self.dump_reputation ep (Except.error s)).calls.length = 1)
    ∧ ((self.set_bundling_mode mode ρ (Except.error s)).result
          = CallOutcome.err (JsonRpcError.fromStatus s)
        ∧ (self.set_bundling_mode mode ρ (Except.error s)).calls.length = 1)
    ∧ ((self.send_bundle_now (Except.error s)).result
          = CallOutcome.err (JsonRpcError.fromStatus s)
        ∧ (self.send_bundle_now (Except.error s)).calls.length = 1)
    ∧ ((self.get_stake_status addr ep (Except.error s)).result
          = CallOutcome.err (JsonRpcError.fromStatus s)
        ∧ (self.get_stake_status addr ep (Except.error s)).calls.length = 1) :=
  ⟨rfl, ⟨rfl, rfl⟩, ⟨rfl, rfl⟩, ⟨rfl, rfl⟩, ⟨rfl, rfl⟩, ⟨rfl, rfl⟩, ⟨rfl, rfl⟩,
   ⟨rfl, rfl⟩, ⟨rfl, rfl⟩, ⟨rfl, rfl⟩⟩

/-- Witness for C6: a concrete unavailable status surfaces through
dump_mempool as the structured error carrying that same message. -/
theorem transport_error_uniform_mapping_witness :
    (implSample.dump_mempool 0
        (Except.error { code := 14, message := "connection refused" })).result
      = CallOutcome.err
          (JsonRpcError.fromStatus { code := 14, message := "connection refused" }) :=
  (transport_error_uniform_mapping implSample
      { code := 14, message := "connection refused" } 0 0 [] BundlerMode.Manual
      Unit Unit).2.2.2.2.1.1

/-- C7: clear-state issues exactly one outbound backend call, the
combined clear of mempool and reputation state (neither of the two
separate clear calls appears in the trace), and returns the success
sentinel when that single call succeeds. -/
theorem clear_state_single_backend_call (self : DebugApiServerImpl)
    (ρ : Type) (resp : Except GrpcStatus ρ) (a : ρ) :
    (self.clear_state ρ resp).calls = [BackendCall.clearAll]
      ∧ (self.clear_state ρ resp).calls.length = 1
      ∧ BackendCall.clearMempool ∉ (self.clear_state ρ resp).calls
      ∧ BackendCall.clearReputation ∉ (self.clear_state ρ resp).calls
      ∧ (self.clear_state ρ (Except.ok a)).result = CallOutcome.ok ResponseSuccess.Ok := by
  refine ⟨rfl, rfl, ?_, ?_, rfl⟩ <;> simp [DebugApiServerImpl.clear_state]

/-- Witness for C7: the concrete trace of clear_state is the single
combined clear call and the outcome is the success sentinel. -/
theorem clear_state_single_backend_call_witness :
    (implSample.clear_state Unit (Except.ok ())).calls = [BackendCall.clearAll]
      ∧ (implSample.clear_state Unit (Except.ok ())).result
          = CallOutcome.ok ResponseSuccess.Ok :=
  ⟨(clear_state_single_backend_call implSample Unit (Except.ok ()) ()).1,
   (clear_state_single_backend_call implSample Unit (Except.ok ()) ()).2.2.2.2⟩

/-- C8: the bridge retains no state across calls: every method leaves the
bridge state (the two backend client handles) unchanged, and both the
outbound call trace and the outcome of every method are independent of
that state, so each result is a function only of the arguments and the
backend response. -/
theorem bridge_retains_no_state (self other : DebugApiServerImpl)
    (ep addr : Address) (entries : List ReputationEntry) (mode : BundlerMode)
    (ρ : Type) (r0 : Except GrpcStatus ρ)
    (r1 : Except GrpcStatus GetAllResponse)
    (r2 : Except GrpcStatus SetReputationResponse)
    (r3 : Except GrpcStatus GetAllReputationResponse)
    (r4 : Except GrpcStatus SendBundleNowResponse)
    (r5 : Except GrpcStatus GetStakeInfoResponse) :
    ((self.clear_mempool ρ r0).post = self
      ∧ (self.clear_mempool ρ r0).calls = (other.clear_mempool ρ r0).calls
      ∧ (self.clear_mempool ρ r0).result = (other.clear_mempool ρ r0).result)
    ∧ ((self.clear_reputation ρ r0).post = self
      ∧ (self.clear_reputation ρ r0).calls = (other.clear_reputation ρ r0).calls
      ∧ (self.clear_reputation ρ r0).result = (other.clear_reputation ρ r0).result)
    ∧ ((self.clear_state ρ r0).post = self
      ∧ (self.clear_state ρ r0).calls = (other.clear_state ρ r0).calls
      ∧ (self.clear_state ρ r0).result = (other.clear_state ρ r0).result)
    ∧ ((self.dump_mempool ep r1).post = self
      ∧ (self.dump_mempool ep r1).calls = (other.dump_mempool ep r1).calls
      ∧ (self.dump_mempool ep r1).result = (other.dump_mempool ep r1).result)
    ∧ ((self.set_reputation entries ep r2).post = self
      ∧ (self.set_reputation entries ep r2).calls
          = (other.set_reputation entries ep r2).calls
      ∧ (self.set_reputation entries ep r2).result
          = (other.set_reputation entries ep r2).result)
    ∧ ((self.dump_reputation ep r3).post = self
      ∧ (self.dump_reputation ep r3).calls = (other.dump_reputation ep r3).calls
      ∧ (self.dump_reputation ep r3).result = (other.dump_reputation ep r3).result)
    ∧ ((self.set_bundling_mode mode ρ r0).post = self
      ∧ (self.set_bundling_mode mode ρ r0).calls
          = (other.set_bundling_mode mode ρ r0).calls
      ∧ (self.set_bundling_mode mode ρ r0).result
          = (other.set_bundling_mode mode ρ r0).result)
    ∧ ((self.send_bundle_now r4).post = self
      ∧ (self.send_bundle_now r4).calls = (other.send_bundle_now r4).calls
      ∧ (self.send_bundle_now r4).result = (other.send_bundle_now r4).result)
    ∧ ((self.get_stake_status addr ep r5).post = self
      ∧ (self.get_stake_status addr ep r5).calls
          = (other.get_stake_status addr ep r5).calls
      ∧ (self.get_stake_status addr ep r5).result
          = (other.get_stake_status addr ep r5).result) :=
  ⟨⟨rfl, rfl, rfl⟩, ⟨rfl, rfl, rfl⟩, ⟨rfl, rfl, rfl⟩, ⟨rfl, rfl, rfl⟩,
   ⟨rfl, rfl, rfl⟩, ⟨rfl, rfl, rfl⟩, ⟨rfl, rfl, rfl⟩, ⟨rfl, rfl, rfl⟩,
   ⟨rfl, rfl, rfl⟩⟩

/-- Witness for C8: after a concrete call the bridge state is exactly the
state it started from. -/
theorem bridge_retains_no_state_witness :
    (implSample.clear_mempool Unit (Except.ok ())).post = implSample :=
  (bridge_retains_no_state implSample implSample 0 0 [] BundlerMode.Manual
      Unit (Except.ok ()) (Except.ok { uos := [] }) (Except.ok { res := 0 })
      (Except.ok { rep := [] }) (Except.ok { res := none })
      (Except.ok { info := none, is_staked := false })).1.1

/-- C10: clear-mempool, clear-reputation and clear-state never inspect
the backend response payload: on any transport-level success, whatever
the payload type and value, each returns the Ok success sentinel. -/
theorem clear_methods_ignore_response_payload (self : DebugApiServerImpl)
    (ρ : Type) (a : ρ) :
    (self.clear_mempool ρ (Except.ok a)).result = CallOutcome.ok ResponseSuccess.Ok
      ∧ (self.clear_reputation ρ (Except.ok a)).result
          = CallOutcome.ok ResponseSuccess.Ok
      ∧ (self.clear_state ρ (Except.ok a)).result
          = CallOutcome.ok ResponseSuccess.Ok :=
  ⟨rfl, rfl, rfl⟩

/-- Witness for C10: a concrete nontrivial payload is ignored by all
three clear methods. -/
theorem clear_methods_ignore_response_payload_witness :
    (implSample.clear_mempool Nat (Except.ok 42)).result
        = CallOutcome.ok ResponseSuccess.Ok
      ∧ (implSample.clear_reputation Nat (Except.ok 42)).result
          = CallOutcome.ok ResponseSuccess.Ok
      ∧ (implSample.clear_state Nat (Except.ok 42)).result
          = CallOutcome.ok ResponseSuccess.Ok :=
  clear_methods_ignore_response_payload implSample Nat 42

end Silius
